import Mathlib

/-!
Verification of the SAL troubleshooting core (`src/tools/sal_troubleshoot_tool.py`)
of the `cdo_ai_tools` repository, as a shallow embedding.

Modelling conventions:
- Python dictionaries returned by the tool are modelled as structures whose
  optional fields are `Option`-typed; a field value `none` means the key is
  absent from the dictionary, and `some v` means the key is present with
  value `v`.  Keys that the source sometimes sets to Python `None` carry a
  nested `Option`.
- Python truthiness tests (`if not x`) are modelled explicitly: an absent
  value, the empty string and the integer zero are falsy.
- Values stored in the DynamoDB `last_timestamp` attribute are modelled as
  either an integer or a string (`TsField`); DynamoDB numeric attributes are
  modelled at integer granularity.  `int(x)` on a string is modelled by
  `String.toInt?`.
- The external collaborators (the SCC inventory tool, the DynamoDB tool and
  the wall clock) are modelled as fields of an environment `SalEnv`: each
  call the core makes is a lookup in that environment.  Both collaborator
  tools in the repository return, on failure, a dictionary with an `error`
  string, so a collaborator failure is modelled as `Except.error msg`.
- Machine arithmetic: Python integers are unbounded, so `Int` is exact.
  Python `//` is floor division, modelled by `Int.fdiv`.
- The calendar rendering of `_epoch_to_readable` (`datetime.fromtimestamp`
  plus `strftime`) is abstracted to the decimal rendering of the epoch; no
  claim depends on the rendered text of a timestamp.
-/

/-- A value found in the `last_timestamp` attribute of a freshness record:
either a numeric value (DynamoDB `Decimal`, modelled at integer granularity)
or a string. -/
inductive TsField
  | tsInt (n : Int)
  | tsStr (s : String)
  deriving DecidableEq, Repr

/-- Python truthiness of a `last_timestamp` value: zero and the empty string
are falsy, everything else is truthy. -/
def TsField.truthy : TsField → Bool
  | .tsInt n => n != 0
  | .tsStr s => s != ""

/-- Python `int(x)` on a timestamp value: an integer converts to itself, a
string is parsed as a decimal integer (raising, i.e. `none`, on failure). -/
def TsField.parseInt : TsField → Option Int
  | .tsInt n => some n
  | .tsStr s => s.toInt?

/-- Python `str(x)` of a timestamp value, used in the
`Invalid timestamp format:` message. -/
def TsField.render : TsField → String
  | .tsInt n => toString n
  | .tsStr s => s

/-- One item returned by the DynamoDB query against the last-event tracking
table.  `record.get('last_timestamp')` yields `none` when the attribute is
absent. -/
structure DdbRecord where
  last_timestamp : Option TsField
  deriving DecidableEq, Repr

/-- A device dictionary as produced by the SCC tool (`scc_tool.py` always
sets the `name` and `uidOnFmc` keys, possibly to `None`, modelled as
`Option`). -/
structure Device where
  name : Option String := none
  uidOnFmc : Option String := none
  deriving DecidableEq, Repr

/-- Truthiness of `d.get('uidOnFmc')`: present and non-empty.  This is the
test of the filter on line 69 of the source and of `if not device_uuid` in
the per-device loops. -/
def Device.hasUuid (d : Device) : Bool :=
  match d.uidOnFmc with
  | some s => s != ""
  | none => false

/-- `device.get('name', 'Unknown')` in the per-device loops. -/
def Device.displayName (d : Device) : String :=
  d.name.getD "Unknown"

/-- A per-device result dictionary (also the success payload of
`check_device_last_event`).  Every `Option` field models presence of the
corresponding key. -/
structure Entry where
  success : Option Bool := none
  device_name : String
  device_uuid : Option (Option String) := none
  stream_id : Option String := none
  status : String
  message : Option String := none
  troubleshooting : Option String := none
  last_event_time : Option (Option String) := none
  last_event_timestamp : Option Int := none
  minutes_since_last_event : Option (Option Int) := none
  is_recent : Option Bool := none
  threshold_minutes : Option Int := none
  deriving DecidableEq, Repr

/-- `d.get('is_recent', False)`, the accessor used by every aggregate
count of recent devices. -/
def Entry.isRecentD (e : Entry) : Bool :=
  e.is_recent.getD false

/-- The environment a `SALTroubleshootTool` instance runs in: its
configuration (constructor, lines 18-31), the two collaborator tools and
the wall clock.  A collaborator failure dictionary always carries an
`error` string in the repository, hence `Except.error`. -/
structure SalEnv where
  hasSccTool : Bool := true
  hasDdbTool : Bool := true
  /-- `SAL_STREAM_ID` (empty string when unset). -/
  default_stream_id : String := ""
  /-- `LAST_EVENT_TRACKING_TABLE_PER_DEVICE` (empty string when unset). -/
  last_event_table : String := ""
  /-- `recent_event_threshold_minutes`, set to 15 in the constructor. -/
  recent_event_threshold_minutes : Int := 15
  /-- `scc_tool.process_request('find', search_term=...)`: the item list on
  success. -/
  sccFind : String → Except String (List Device) := fun _ => .ok []
  /-- `scc_tool.process_request('query', lucene_query=...)`. -/
  sccQuery : String → Except String (List Device) := fun _ => .ok []
  /-- `scc_tool.process_request('list', limit=n)`. -/
  sccList : Nat → Except String (List Device) := fun _ => .ok []
  /-- `dynamodb_tool.process_query` against the last-event table, keyed by
  `(stream_id, device_uuid)`: the item list on success. -/
  store : String → String → Except String (List DdbRecord) := fun _ _ => .ok []
  /-- `int(time.time())`. -/
  now : Int := 0

/-- `_minutes_since_epoch` (lines 44-47): Python floor division by 60. -/
def minutes_since_epoch (env : SalEnv) (epoch_timestamp : Int) : Int :=
  (env.now - epoch_timestamp).fdiv 60

/-- `_epoch_to_readable` (lines 37-42), abstracted: the calendar rendering
of `datetime.fromtimestamp(...).strftime(...)` is replaced by the decimal
rendering of the epoch.  No claim depends on this text. -/
def epoch_to_readable (epoch_timestamp : Int) : String :=
  toString epoch_timestamp

/-- Python `x or 'Unknown'` on an optional device name argument. -/
def nameOrUnknown : Option String → String
  | some s => if s = "" then "Unknown" else s
  | none => "Unknown"

/-- `check_device_last_event` (lines 84-191).  The DynamoDB query result is
passed in as `ddb`; the caller supplies `env.store stream_id device_uuid`.
`Except.error e` models `{'success': False, 'error': e}`. -/
def check_device_last_event (env : SalEnv) (ddb : Except String (List DdbRecord))
    (stream_id device_uuid : String) (device_name : Option String) :
    Except String Entry :=
  if ¬ env.hasDdbTool then .error "DynamoDB tool not available"
  else if env.last_event_table = "" then
    .error "LAST_EVENT_TRACKING_TABLE_PER_DEVICE not configured"
  else
    match ddb with
    | .error e => .error e
    | .ok records =>
      match records with
      | [] =>
        -- no record found: device never sent events (lines 109-122)
        .ok { success := some true
              device_name := nameOrUnknown device_name
              device_uuid := some (some device_uuid)
              stream_id := some stream_id
              status := "no_events_ever"
              message := some "No events have ever been recorded for this device in SAL"
              troubleshooting := some "Device may not be properly configured to send events to SAL or may have never been active"
              last_event_time := some none
              minutes_since_last_event := some none
              is_recent := some false }
      | record :: _ =>
        match record.last_timestamp with
        | none =>
          -- `if not last_timestamp` with the key absent (lines 128-140)
          .ok { success := some true
                device_name := nameOrUnknown device_name
                device_uuid := some (some device_uuid)
                stream_id := some stream_id
                status := "invalid_timestamp"
                message := some "Device record exists but has invalid timestamp"
                troubleshooting := some "Database record corruption or invalid data format"
                last_event_time := some none
                minutes_since_last_event := some none
                is_recent := some false }
        | some ts =>
          if ¬ ts.truthy then
            -- `if not last_timestamp` with a falsy value (zero or empty string)
            .ok { success := some true
                  device_name := nameOrUnknown device_name
                  device_uuid := some (some device_uuid)
                  stream_id := some stream_id
                  status := "invalid_timestamp"
                  message := some "Device record exists but has invalid timestamp"
                  troubleshooting := some "Database record corruption or invalid data format"
                  last_event_time := some none
                  minutes_since_last_event := some none
                  is_recent := some false }
          else
            match ts.parseInt with
            | none =>
              -- `int(last_timestamp)` raised (lines 143-157)
              .ok { success := some true
                    device_name := nameOrUnknown device_name
                    device_uuid := some (some device_uuid)
                    stream_id := some stream_id
                    status := "invalid_timestamp"
                    message := some ("Invalid timestamp format: " ++ ts.render)
                    troubleshooting := some "Database timestamp is not in valid epoch format"
                    last_event_time := some none
                    minutes_since_last_event := some none
                    is_recent := some false }
            | some last_timestamp_epoch =>
              -- classification (lines 159-187)
              let minutes_since := minutes_since_epoch env last_timestamp_epoch
              let is_recent : Bool := minutes_since ≤ env.recent_event_threshold_minutes
              let readable_time := epoch_to_readable last_timestamp_epoch
              .ok { success := some true
                    device_name := nameOrUnknown device_name
                    device_uuid := some (some device_uuid)
                    stream_id := some stream_id
                    status := if is_recent then "events_recent" else "events_stale"
                    message := some (if is_recent then
                        "Device is actively sending events to SAL. Last event: " ++
                          readable_time ++ " (" ++ toString minutes_since ++ " minutes ago)"
                      else
                        "No recent events from device. Last event: " ++
                          readable_time ++ " (" ++ toString minutes_since ++ " minutes ago)")
                    troubleshooting := some (if is_recent then
                        "Device is working correctly - events are being received recently"
                      else
                        "Device may be offline, misconfigured, or experiencing connectivity issues. Events are older than " ++
                          toString env.recent_event_threshold_minutes ++ " minutes")
                    last_event_time := some (some readable_time)
                    last_event_timestamp := some last_timestamp_epoch
                    minutes_since_last_event := some (some minutes_since)
                    is_recent := some is_recent
                    threshold_minutes := some env.recent_event_threshold_minutes }

/-- Success payload of `find_devices_by_criteria` (lines 71-76). -/
structure FindResult where
  devices_found : Nat
  devices : List Device
  search_criteria : String
  deriving DecidableEq, Repr

/-- Python `a or b` on an optional string: falls through on absent or
empty. -/
def pyOrStr : Option String → String → String
  | some s, b => if s = "" then b else s
  | none, b => b

/-- `find_devices_by_criteria` (lines 49-82): choose a search strategy,
then keep only the devices whose `uidOnFmc` is truthy.  An SCC failure
dictionary is passed through unchanged (`return result`, line 78), hence
`Except.error` with the SCC error string. -/
def find_devices_by_criteria (env : SalEnv)
    (device_name device_filter : Option String) :
    Except String FindResult :=
  if ¬ env.hasSccTool then .error "SCC tool not available"
  else
    let result :=
      match device_name with
      | some n => if n = "" then
          (match device_filter with
           | some f => if f = "" then env.sccList 100 else env.sccQuery f
           | none => env.sccList 100)
        else env.sccFind n
      | none =>
        match device_filter with
        | some f => if f = "" then env.sccList 100 else env.sccQuery f
        | none => env.sccList 100
    match result with
    | .error e => .error e
    | .ok devices =>
      let valid_devices := devices.filter Device.hasUuid
      .ok { devices_found := valid_devices.length
            devices := valid_devices
            search_criteria :=
              pyOrStr device_name (pyOrStr device_filter "all devices") }

/-- Aggregate summary dictionary (`summary` key of the two report
responses).  `devices_with_errors` and `healthy_percentage` are produced
only by `check_all_devices_status`.

The source stores `round(healthy_percentage, 2)` in this dictionary; the
IEEE-754 two-decimal rounding is presentational and is not modelled — the
unrounded rational is kept.  The `overall_status` comparison in the source
uses the unrounded value as well (lines 342, 357). -/
structure Summary where
  total_devices : Nat
  devices_with_recent_events : Nat
  devices_with_stale_events : Nat
  devices_with_no_events : Nat
  devices_with_errors : Option Nat := none
  healthy_percentage : Option ℚ := none
  deriving DecidableEq, Repr

/-- A top-level response dictionary of the troubleshooting tool.  `Option`
fields model key presence, as for `Entry`.  The source stores the device
list of the stream-id configuration error under the key `devices_found`
(line 219); it is kept here in the `devices` field since `devices_found`
is elsewhere a count. -/
structure Response where
  success : Bool
  error : Option String := none
  status : Option String := none
  message : Option String := none
  troubleshooting : Option String := none
  search_criteria : Option String := none
  stream_id : Option String := none
  devices_checked : Option Nat := none
  summary : Option Summary := none
  device_results : Option (List Entry) := none
  overall_status : Option String := none
  recommendations : Option (List String) := none
  devices : Option (List Device) := none
  deriving DecidableEq, Repr

/-- `{'success': False, 'error': e}`. -/
def errResponse (e : String) : Response :=
  { success := false, error := some e }

/-- Body of the per-device loop of `troubleshoot_device` (lines 226-252):
each iteration appends exactly one entry. -/
def troubleshootEntry (env : SalEnv) (stream_id : String) (device : Device) :
    Entry :=
  if ¬ device.hasUuid then
    { device_name := device.displayName
      device_uuid := some none
      status := "no_uuid"
      message := some "Device does not have uidOnFmc (not manageable by FMC)"
      troubleshooting := some "This device type may not support SAL event streaming" }
  else
    let device_uuid := device.uidOnFmc.getD ""
    match check_device_last_event env (env.store stream_id device_uuid)
        stream_id device_uuid (some device.displayName) with
    | .ok event_check => event_check
    | .error e =>
      { device_name := device.displayName
        device_uuid := some (some device_uuid)
        status := "error"
        message := some ("Error checking events: " ++ e)
        troubleshooting := some "Unable to query SAL event tracking table" }

/-- `troubleshoot_device` (lines 193-277). -/
def troubleshoot_device (env : SalEnv) (device_criteria : String)
    (stream_id : Option String) : Response :=
  match find_devices_by_criteria env (some device_criteria) none with
  | .error e => errResponse e
  | .ok device_result =>
    let devices := device_result.devices
    if devices = [] then
      { success := true
        status := some "device_not_found"
        message := some ("No firewall devices found matching criteria: " ++ device_criteria)
        troubleshooting := some "Check device name spelling or try broader search criteria" }
    else
      let sid := pyOrStr stream_id env.default_stream_id
      if sid = "" then
        { success := false
          error := some "Stream ID required but not provided and no default configured (SAL_STREAM_ID)"
          devices := some devices
          message := some "Please provide stream_id parameter or configure SAL_STREAM_ID in environment" }
      else
        let device_results := devices.map (troubleshootEntry env sid)
        let total_devices := device_results.length
        let recent_devices := device_results.countP Entry.isRecentD
        let stale_devices := device_results.countP (fun d => d.status == "events_stale")
        let no_events_devices := device_results.countP (fun d => d.status == "no_events_ever")
        { success := true
          search_criteria := some device_criteria
          stream_id := some sid
          devices_checked := some total_devices
          summary := some { total_devices := total_devices
                            devices_with_recent_events := recent_devices
                            devices_with_stale_events := stale_devices
                            devices_with_no_events := no_events_devices }
          device_results := some device_results
          overall_status := some (if recent_devices = total_devices then "healthy"
                                  else "issues_detected") }

/-- Body of the per-device loop of `check_all_devices_status`
(lines 309-333).  Unlike the loop of `troubleshoot_device`, the `no_uuid`
and `error` entries carry no `message` or `troubleshooting` key. -/
def checkAllEntry (env : SalEnv) (stream_id : String) (device : Device) :
    Entry :=
  if ¬ device.hasUuid then
    { device_name := device.displayName
      device_uuid := some none
      status := "no_uuid"
      is_recent := some false }
  else
    let device_uuid := device.uidOnFmc.getD ""
    match check_device_last_event env (env.store stream_id device_uuid)
        stream_id device_uuid (some device.displayName) with
    | .ok event_check => event_check
    | .error _ =>
      { device_name := device.displayName
        device_uuid := some (some device_uuid)
        status := "error"
        is_recent := some false }

/-- The recommendation emitted when some devices never sent events. -/
def noEventsLine (n : Nat) : String :=
  toString n ++ " devices have never sent events - check SAL configuration and device connectivity"

/-- The recommendation emitted when some devices have stale events. -/
def staleLine (n : Nat) : String :=
  toString n ++ " devices have stale events - verify devices are online and SAL forwarding is working"

/-- The recommendation emitted when no device is missing or stale. -/
def healthyLine : String :=
  "All devices are sending recent events to SAL - system is healthy"

/-- `_generate_recommendations` (lines 365-381): the sequence of
conditional appends is written as a concatenation of conditional singleton
lists. -/
def generate_recommendations (device_results : List Entry) : List String :=
  let no_events_count := device_results.countP (fun d => d.status == "no_events_ever")
  let stale_count := device_results.countP (fun d => d.status == "events_stale")
  (if no_events_count > 0 then [noEventsLine no_events_count] else []) ++
  (if stale_count > 0 then [staleLine stale_count] else []) ++
  (if no_events_count = 0 ∧ stale_count = 0 then [healthyLine] else [])

/-- `check_all_devices_status` (lines 279-363). -/
def check_all_devices_status (env : SalEnv) (stream_id : Option String)
    (limit : Nat) : Response :=
  let sid := pyOrStr stream_id env.default_stream_id
  if sid = "" then
    errResponse "Stream ID required but not provided and no default configured (SAL_STREAM_ID)"
  else
    match find_devices_by_criteria env none none with
    | .error e => errResponse e
    | .ok device_result =>
      let devices := device_result.devices.take limit
      if devices = [] then
        { success := true
          status := some "no_devices"
          message := some "No firewall devices found in SCC" }
      else
        let device_results := devices.map (checkAllEntry env sid)
        let total_devices := device_results.length
        let recent_devices := device_results.countP Entry.isRecentD
        let stale_devices := device_results.countP (fun d => d.status == "events_stale")
        let no_events_devices := device_results.countP (fun d => d.status == "no_events_ever")
        let error_devices := device_results.countP (fun d => d.status == "error")
        let healthy_percentage : ℚ :=
          if total_devices > 0 then (recent_devices : ℚ) / (total_devices : ℚ) * 100 else 0
        { success := true
          stream_id := some sid
          devices_checked := some total_devices
          summary := some { total_devices := total_devices
                            devices_with_recent_events := recent_devices
                            devices_with_stale_events := stale_devices
                            devices_with_no_events := no_events_devices
                            devices_with_errors := some error_devices
                            healthy_percentage := some healthy_percentage }
          device_results := some device_results
          overall_status := some (if healthy_percentage > 80 then "healthy"
                                  else "issues_detected")
          recommendations := some (generate_recommendations device_results) }

/-- The keyword arguments of `process_request`, with `none` for an absent
key. -/
structure Kwargs where
  device_criteria : Option String := none
  device_name : Option String := none
  stream_id : Option String := none
  device_uuid : Option String := none
  limit : Option Nat := none
  deriving Repr

/-- A value returned by `process_request`: either a top-level response
dictionary or, for `check_device_events`, the entry dictionary of
`check_device_last_event` returned as-is. -/
inductive SalOut
  | resp (r : Response)
  | entry (e : Entry)
  deriving DecidableEq, Repr

/-- The `success` key of a `process_request` result. -/
def SalOut.successKey : SalOut → Option Bool
  | .resp r => some r.success
  | .entry e => e.success

/-- The `error` key of a `process_request` result. -/
def SalOut.errorKey : SalOut → Option String
  | .resp r => r.error
  | .entry _ => none

/-- `process_request` (lines 383-417). -/
def process_request (env : SalEnv) (operation : String) (kwargs : Kwargs) :
    SalOut :=
  if operation = "troubleshoot_device" then
    let device_criteria := pyOrStr kwargs.device_criteria (kwargs.device_name.getD "")
    if device_criteria = "" then
      .resp (errResponse "device_criteria or device_name is required")
    else
      .resp (troubleshoot_device env device_criteria kwargs.stream_id)
  else if operation = "check_all_devices" then
    .resp (check_all_devices_status env kwargs.stream_id (kwargs.limit.getD 50))
  else if operation = "check_device_events" then
    let stream_id := pyOrStr kwargs.stream_id env.default_stream_id
    let device_uuid := kwargs.device_uuid.getD ""
    if stream_id = "" then .resp (errResponse "stream_id is required")
    else if device_uuid = "" then .resp (errResponse "device_uuid is required")
    else
      match check_device_last_event env (env.store stream_id device_uuid)
          stream_id device_uuid (some (kwargs.device_name.getD "Unknown")) with
      | .ok e => .entry e
      | .error e => .resp (errResponse e)
  else
    .resp (errResponse ("Unsupported operation: " ++ operation ++
      ". Available: troubleshoot_device, check_all_devices, check_device_events"))

/-- Count of the per-device entries carrying a given status. -/
def countStatus (s : String) (rs : List Entry) : Nat :=
  rs.countP (fun d => d.status == s)

/-- Shape of every successful result of `check_device_last_event`: a full
report entry (success flag, message, troubleshooting, stream and device
identity all present) whose status is one of the four freshness statuses,
with `is_recent` true exactly on `events_recent`. -/
theorem check_device_last_event_ok_shape (env : SalEnv)
    (ddb : Except String (List DdbRecord)) (sid uuid : String)
    (name : Option String) (e : Entry)
    (h : check_device_last_event env ddb sid uuid name = .ok e) :
    e.success = some true ∧ e.message.isSome ∧ e.troubleshooting.isSome ∧
    ((e.is_recent = some true ∧ e.status = "events_recent") ∨
     (e.is_recent = some false ∧
       (e.status = "no_events_ever" ∨ e.status = "invalid_timestamp" ∨
        e.status = "events_stale"))) := by
  by_cases h1 : env.hasDdbTool
  · by_cases h2 : env.last_event_table = ""
    · simp [check_device_last_event, h1, h2] at h
    · rcases ddb with msg | records
      · simp [check_device_last_event, h1, h2] at h
      · rcases records with _ | ⟨record, rest⟩
        · simp [check_device_last_event, h1, h2] at h
          subst h
          simp
        · rcases hts : record.last_timestamp with _ | ts
          · simp [check_device_last_event, h1, h2, hts] at h
            subst h
            simp
          · by_cases h3 : ts.truthy
            · rcases hp : ts.parseInt with _ | n
              · simp [check_device_last_event, h1, h2, hts, h3, hp] at h
                subst h
                simp
              · simp [check_device_last_event, h1, h2, hts, h3, hp] at h
                subst h
                by_cases h4 :
                    minutes_since_epoch env n ≤ env.recent_event_threshold_minutes
                · simp [h4]
                · simp [h4]
            · simp [check_device_last_event, h1, h2, hts, h3] at h
              subst h
              simp
  · simp [check_device_last_event, h1] at h

/-- Every entry built by the per-device loop of `check_all_devices_status`
falls in exactly one of the six status categories, and it counts as recent
exactly when its status is `events_recent`. -/
theorem checkAllEntry_category (env : SalEnv) (sid : String) (d : Device) :
    ((if (checkAllEntry env sid d).isRecentD then 1 else 0) +
     (if (checkAllEntry env sid d).status == "events_stale" then 1 else 0) +
     (if (checkAllEntry env sid d).status == "no_events_ever" then 1 else 0) +
     (if (checkAllEntry env sid d).status == "no_uuid" then 1 else 0) +
     (if (checkAllEntry env sid d).status == "error" then 1 else 0) +
     (if (checkAllEntry env sid d).status == "invalid_timestamp" then 1 else 0)
       = 1) ∧
    (checkAllEntry env sid d).isRecentD =
      ((checkAllEntry env sid d).status == "events_recent") := by
  by_cases hu : d.hasUuid
  · rcases hc : check_device_last_event env (env.store sid (d.uidOnFmc.getD ""))
        sid (d.uidOnFmc.getD "") (some d.displayName) with msg | e
    · simp [checkAllEntry, hu, hc, Entry.isRecentD]
    · have hshape := check_device_last_event_ok_shape env _ _ _ _ _ hc
      rcases hshape with ⟨-, -, -, ⟨hr, hs⟩ | ⟨hr, hs | hs | hs⟩⟩ <;>
        simp [checkAllEntry, hu, hc, Entry.isRecentD, hr, hs]
  · simp [checkAllEntry, hu, Entry.isRecentD]

/-- Summing the six per-status counts over the entry list of a
`check_all_devices_status` run accounts for every device exactly once. -/
theorem checkAll_counts_partition (env : SalEnv) (sid : String)
    (devices : List Device) :
    (devices.map (checkAllEntry env sid)).countP Entry.isRecentD +
    countStatus "events_stale" (devices.map (checkAllEntry env sid)) +
    countStatus "no_events_ever" (devices.map (checkAllEntry env sid)) +
    countStatus "no_uuid" (devices.map (checkAllEntry env sid)) +
    countStatus "error" (devices.map (checkAllEntry env sid)) +
    countStatus "invalid_timestamp" (devices.map (checkAllEntry env sid))
      = devices.length := by
  induction devices with
  | nil => simp [countStatus]
  | cons d l ih =>
    obtain ⟨hsum, -⟩ := checkAllEntry_category env sid d
    simp only [List.map_cons, countStatus, List.countP_cons, List.length_cons] at ih ⊢
    omega

/-- Recent devices in a `check_all_devices_status` run are exactly the
entries with status `events_recent`. -/
theorem checkAll_recent_eq_events_recent (env : SalEnv) (sid : String)
    (devices : List Device) :
    (devices.map (checkAllEntry env sid)).countP Entry.isRecentD =
      countStatus "events_recent" (devices.map (checkAllEntry env sid)) := by
  induction devices with
  | nil => simp [countStatus]
  | cons d l ih =>
    have hcat := (checkAllEntry_category env sid d).2
    simp only [List.map_cons, countStatus, List.countP_cons, List.length_cons] at ih ⊢
    rw [hcat, ih]

/-- A device with both a name and a telemetry identifier. -/
def devTracked : Device := { name := some "fw-1", uidOnFmc := some "uuid-1" }

/-- A freshness record whose `last_timestamp` attribute is absent. -/
def recNoTs : DdbRecord := { last_timestamp := none }

/-- A fully configured environment whose single device has a freshness
record with no timestamp attribute, so its per-device entry gets status
`invalid_timestamp`. -/
def envInvalidTs : SalEnv :=
  { last_event_table := "tracking"
    default_stream_id := "stream-1"
    sccList := fun _ => .ok [devTracked]
    store := fun _ _ => .ok [recNoTs] }

/-- The sum of the five status counts named by the spec partition
(recent, stale, no_events, no_uuid, error) of a fleet report, read off the
summary and the entry list; `none` when the response carries no report. -/
def sumFiveCounts (r : Response) : Option Nat :=
  match r.summary, r.device_results with
  | some s, some rs =>
      some (s.devices_with_recent_events + s.devices_with_stale_events +
        s.devices_with_no_events + countStatus "no_uuid" rs +
        s.devices_with_errors.getD 0)
  | _, _ => none

/-- C1 counterexample: a run of `check_all_devices_status` over one device
whose freshness record has an invalid timestamp checks one device, yet the
five counts {recent, stale, no_events, no_uuid, error} sum to zero — the
claimed partition is not exhaustive once `invalid_timestamp` entries
exist. -/
theorem check_all_partition_cex :
    sumFiveCounts (check_all_devices_status envInvalidTs none 50) = some 0 ∧
    (check_all_devices_status envInvalidTs none 50).devices_checked = some 1 := by
  decide

/-- C1 (amended): in every successful `check_all_devices_status` report the
six counts {recent, stale, no_events_ever, no_uuid, error,
invalid_timestamp} are pairwise disjoint (recent entries are exactly the
`events_recent` entries) and sum exactly to `devices_checked`; the five
counts of the original claim sum to `devices_checked` minus the number of
`invalid_timestamp` entries. -/
theorem check_all_counts_partition_with_invalid (env : SalEnv)
    (sid : Option String) (lim : Nat) (s : Summary) (rs : List Entry)
    (hs : (check_all_devices_status env sid lim).summary = some s)
    (hr : (check_all_devices_status env sid lim).device_results = some rs) :
    s.devices_with_recent_events + s.devices_with_stale_events +
      s.devices_with_no_events + countStatus "no_uuid" rs +
      s.devices_with_errors.getD 0 + countStatus "invalid_timestamp" rs
      = s.total_devices ∧
    (check_all_devices_status env sid lim).devices_checked
      = some s.total_devices ∧
    s.devices_with_recent_events = countStatus "events_recent" rs ∧
    s.total_devices = rs.length := by
  unfold check_all_devices_status at hs hr ⊢
  by_cases h1 : pyOrStr sid env.default_stream_id = ""
  · simp [h1, errResponse] at hs
  · rcases hf : find_devices_by_criteria env none none with msg | dr
    · simp [h1, hf, errResponse] at hs
    · by_cases h2 : dr.devices.take lim = []
      · simp [h1, hf, h2] at hs
      · simp only [h1, hf, h2, if_false, if_true, if_neg, Option.some.injEq] at hs hr ⊢
        subst hs
        subst hr
        refine ⟨?_, rfl, ?_, ?_⟩
        · simpa [countStatus, List.length_map] using
            checkAll_counts_partition env (pyOrStr sid env.default_stream_id)
              (List.take lim dr.devices)
        · simpa [countStatus] using
            checkAll_recent_eq_events_recent env (pyOrStr sid env.default_stream_id)
              (List.take lim dr.devices)
        · rfl

/-- The per-device entry produced for `devTracked` in `envInvalidTs`. -/
def entryInvalidTs : Entry :=
  { success := some true
    device_name := "fw-1"
    device_uuid := some (some "uuid-1")
    stream_id := some "stream-1"
    status := "invalid_timestamp"
    message := some "Device record exists but has invalid timestamp"
    troubleshooting := some "Database record corruption or invalid data format"
    last_event_time := some none
    minutes_since_last_event := some none
    is_recent := some false }

/-- The summary produced by `check_all_devices_status` on `envInvalidTs`. -/
def summaryInvalidTs : Summary :=
  { total_devices := 1
    devices_with_recent_events := 0
    devices_with_stale_events := 0
    devices_with_no_events := 0
    devices_with_errors := some 0
    healthy_percentage := some 0 }

theorem check_all_counts_partition_with_invalid_witness :
    summaryInvalidTs.devices_with_recent_events +
      summaryInvalidTs.devices_with_stale_events +
      summaryInvalidTs.devices_with_no_events +
      countStatus "no_uuid" [entryInvalidTs] +
      summaryInvalidTs.devices_with_errors.getD 0 +
      countStatus "invalid_timestamp" [entryInvalidTs]
      = summaryInvalidTs.total_devices ∧
    (check_all_devices_status envInvalidTs none 50).devices_checked
      = some summaryInvalidTs.total_devices ∧
    summaryInvalidTs.devices_with_recent_events
      = countStatus "events_recent" [entryInvalidTs] ∧
    summaryInvalidTs.total_devices = ([entryInvalidTs] : List Entry).length :=
  check_all_counts_partition_with_invalid envInvalidTs none 50
    summaryInvalidTs [entryInvalidTs]
    (by simp [check_all_devices_status, find_devices_by_criteria, envInvalidTs,
          pyOrStr, devTracked, recNoTs, checkAllEntry, check_device_last_event,
          Device.hasUuid, Device.displayName, nameOrUnknown, summaryInvalidTs,
          Entry.isRecentD])
    (by decide)

/-- Shape of `find_devices_by_criteria` when called with a non-empty device
name whose search succeeds: the returned list is the filter of the search
result to devices with a truthy `uidOnFmc`. -/
theorem find_devices_by_name (env : SalEnv) (criteria : String)
    (items : List Device) (hok : env.hasSccTool = true) (hc : criteria ≠ "")
    (hscc : env.sccFind criteria = .ok items) :
    find_devices_by_criteria env (some criteria) none =
      .ok { devices_found := (items.filter Device.hasUuid).length
            devices := items.filter Device.hasUuid
            search_criteria := criteria } := by
  simp [find_devices_by_criteria, hok, hc, hscc, pyOrStr]

/-- No entry produced by the per-device loop of `troubleshoot_device` for a
device with a truthy `uidOnFmc` carries status `no_uuid`. -/
theorem troubleshootEntry_not_no_uuid (env : SalEnv) (sid : String)
    (d : Device) (hd : d.hasUuid = true) :
    (troubleshootEntry env sid d).status ≠ "no_uuid" := by
  rcases hc : check_device_last_event env (env.store sid (d.uidOnFmc.getD ""))
      sid (d.uidOnFmc.getD "") (some d.displayName) with msg | e
  · simp [troubleshootEntry, hd, hc]
  · have hshape := check_device_last_event_ok_shape env _ _ _ _ _ hc
    rcases hshape with ⟨-, -, -, ⟨-, hs⟩ | ⟨-, hs | hs | hs⟩⟩ <;>
      simp [troubleshootEntry, hd, hc, hs]

/-- C2 counterexample: the one device matching the search lacks `uidOnFmc`;
`troubleshoot_device` returns `device_not_found` — no `no_uuid` entry is
emitted and no `devices_checked` count includes the device. -/
def devNoUuid : Device := { name := some "fw-2" }

def envNoUuid : SalEnv :=
  { last_event_table := "tracking"
    default_stream_id := "stream-1"
    sccFind := fun _ => .ok [devNoUuid] }

theorem troubleshoot_no_uuid_cex :
    (troubleshoot_device envNoUuid "fw-2" none).success = true ∧
    (troubleshoot_device envNoUuid "fw-2" none).status
      = some "device_not_found" ∧
    (troubleshoot_device envNoUuid "fw-2" none).devices_checked = none ∧
    (troubleshoot_device envNoUuid "fw-2" none).device_results = none := by
  decide

/-- C2 (amended): devices returned by the Directory Client search without a
truthy `uidOnFmc` are filtered out before the per-device loop of
`troubleshoot_device`: they produce no report entry and are not counted in
`devices_checked`, which counts exactly the devices that pass the filter;
consequently no entry of the report carries status `no_uuid`. -/
theorem troubleshoot_device_excludes_no_uuid (env : SalEnv)
    (criteria : String) (sid : Option String) (items : List Device)
    (hok : env.hasSccTool = true) (hc : criteria ≠ "")
    (hscc : env.sccFind criteria = .ok items) :
    ((troubleshoot_device env criteria sid).devices_checked = none ∨
     (troubleshoot_device env criteria sid).devices_checked
        = some (items.filter Device.hasUuid).length) ∧
    (∀ rs, (troubleshoot_device env criteria sid).device_results = some rs →
      ∀ e ∈ rs, e.status ≠ "no_uuid") := by
  have hfind := find_devices_by_name env criteria items hok hc hscc
  unfold troubleshoot_device
  rw [hfind]
  by_cases h2 : items.filter Device.hasUuid = []
  · simp [h2]
  · by_cases h3 : pyOrStr sid env.default_stream_id = ""
    · simp [h2, h3]
    · simp only [h2, h3, if_false, if_neg, if_true]
      constructor
      · right
        simp [List.length_map]
      · intro rs hrs e he
        simp only [Option.some.injEq] at hrs
        subst hrs
        rcases List.mem_map.mp he with ⟨d, hd, rfl⟩
        exact troubleshootEntry_not_no_uuid env _ d (List.of_mem_filter hd)

/-- The status of a freshness-check result, when it is not a failure. -/
def resultStatus (r : Except String Entry) : Option String :=
  r.toOption.map Entry.status

/-- A record whose stored timestamp is the integer zero: it is falsy for
Python truthiness although `int(...)` parses it. -/
def recZeroTs : DdbRecord := { last_timestamp := some (.tsInt 0) }

def envZeroTs : SalEnv :=
  { last_event_table := "tracking"
    default_stream_id := "stream-1"
    now := 30
    store := fun _ _ => .ok [recZeroTs] }

/-- C3 counterexample: a record whose timestamp field parses as the integer
0 satisfies `minutes_since = 0 <= threshold`, yet `check_device_last_event`
classifies it `invalid_timestamp` (the `if not last_timestamp` truthiness
test fires before parsing), not `events_recent`. -/
theorem check_device_zero_ts_not_classified_cex :
    TsField.parseInt (.tsInt 0) = some 0 ∧
    ((envZeroTs.now - 0).fdiv 60 ≤ envZeroTs.recent_event_threshold_minutes) ∧
    resultStatus (check_device_last_event envZeroTs (.ok [recZeroTs])
        "stream-1" "uuid-1" (some "fw-1")) = some "invalid_timestamp" := by
  decide

/-- C3 (amended): for every freshness record whose timestamp field is
truthy (non-zero, non-empty) and parses as an integer, the evaluator
computes `minutes_since = (now_epoch - last_seen_epoch) // 60` by integer
floor division (possibly negative when the timestamp is in the future) and
sets `is_recent` true iff `minutes_since <= threshold`, classifying the
device `events_recent` exactly when `is_recent` holds and `events_stale`
otherwise. -/
theorem check_device_recency_classification (env : SalEnv)
    (sid uuid : String) (name : Option String) (record : DdbRecord)
    (rest : List DdbRecord) (ts : TsField) (n : Int) (e : Entry)
    (h1 : env.hasDdbTool = true) (h2 : env.last_event_table ≠ "")
    (hrec : record.last_timestamp = some ts) (htr : ts.truthy = true)
    (hn : ts.parseInt = some n)
    (he : check_device_last_event env (.ok (record :: rest)) sid uuid name
            = .ok e) :
    e.minutes_since_last_event = some (some ((env.now - n).fdiv 60)) ∧
    (e.is_recent = some true ↔
      (env.now - n).fdiv 60 ≤ env.recent_event_threshold_minutes) ∧
    (e.status = "events_recent" ↔
      (env.now - n).fdiv 60 ≤ env.recent_event_threshold_minutes) ∧
    (e.status = "events_stale" ↔
      ¬ (env.now - n).fdiv 60 ≤ env.recent_event_threshold_minutes) := by
  simp [check_device_last_event, h1, h2, hrec, htr, hn,
    minutes_since_epoch] at he
  subst he
  by_cases hcmp : (env.now - n).fdiv 60 ≤ env.recent_event_threshold_minutes
  · simp [hcmp]
  · simp [hcmp]

def envRecentTs : SalEnv :=
  { last_event_table := "tracking"
    default_stream_id := "stream-1"
    now := 1000
    store := fun _ _ => .ok [{ last_timestamp := some (.tsInt 700) }] }

/-- The entry computed for the single device of `envRecentTs`. -/
def entryRecentTs : Entry :=
  { success := some true
    device_name := "fw-1"
    device_uuid := some (some "uuid-1")
    stream_id := some "stream-1"
    status := "events_recent"
    message := some "Device is actively sending events to SAL. Last event: 700 (5 minutes ago)"
    troubleshooting := some "Device is working correctly - events are being received recently"
    last_event_time := some (some "700")
    last_event_timestamp := some 700
    minutes_since_last_event := some (some 5)
    is_recent := some true
    threshold_minutes := some 15 }

theorem check_device_recency_classification_witness :
    entryRecentTs.minutes_since_last_event
      = some (some ((envRecentTs.now - 700).fdiv 60)) ∧
    (entryRecentTs.is_recent = some true ↔
      (envRecentTs.now - 700).fdiv 60
        ≤ envRecentTs.recent_event_threshold_minutes) ∧
    (entryRecentTs.status = "events_recent" ↔
      (envRecentTs.now - 700).fdiv 60
        ≤ envRecentTs.recent_event_threshold_minutes) ∧
    (entryRecentTs.status = "events_stale" ↔
      ¬ (envRecentTs.now - 700).fdiv 60
          ≤ envRecentTs.recent_event_threshold_minutes) :=
  check_device_recency_classification envRecentTs "stream-1" "uuid-1"
    (some "fw-1") { last_timestamp := some (.tsInt 700) } [] (.tsInt 700)
    700 entryRecentTs (by decide) (by decide) rfl (by decide) (by decide)
    (by rfl)

/-- Whether a freshness-check result is a success dictionary rather than a
failure. -/
def isOkResult : Except String Entry → Bool
  | .ok _ => true
  | .error _ => false

/-- C4 counterexample: a record whose `last_timestamp` is present and
parses as the integer 0 is nevertheless classified `invalid_timestamp`,
because the Python truthiness test `if not last_timestamp` fires on zero
before parsing — the claimed "missing or fails to parse" iff is violated. -/
theorem check_device_invalid_despite_parse_cex :
    recZeroTs.last_timestamp = some (.tsInt 0) ∧
    TsField.parseInt (.tsInt 0) = some 0 ∧
    resultStatus (check_device_last_event envZeroTs (.ok [recZeroTs])
        "stream-1" "uuid-2" (some "fw-1")) = some "invalid_timestamp" := by
  decide

/-- C4 (amended): whenever a freshness record is found, the check never
fails and never raises: it returns a success dictionary whose status is
`invalid_timestamp` exactly when the timestamp field is missing, falsy
(integer zero or empty string), or fails to parse as an integer; in every
other case the device is classified `events_recent` or `events_stale`. -/
theorem check_device_invalid_timestamp_iff (env : SalEnv) (sid uuid : String)
    (name : Option String) (record : DdbRecord) (rest : List DdbRecord)
    (h1 : env.hasDdbTool = true) (h2 : env.last_event_table ≠ "") :
    isOkResult (check_device_last_event env (.ok (record :: rest))
        sid uuid name) = true ∧
    (resultStatus (check_device_last_event env (.ok (record :: rest))
        sid uuid name) = some "invalid_timestamp" ↔
      (record.last_timestamp = none ∨
       ∃ ts, record.last_timestamp = some ts ∧
         (ts.truthy = false ∨ ts.parseInt = none))) ∧
    (resultStatus (check_device_last_event env (.ok (record :: rest))
        sid uuid name) ≠ some "invalid_timestamp" →
      resultStatus (check_device_last_event env (.ok (record :: rest))
          sid uuid name) = some "events_recent" ∨
      resultStatus (check_device_last_event env (.ok (record :: rest))
          sid uuid name) = some "events_stale") := by
  rcases hrec : record.last_timestamp with _ | ts
  · simp [check_device_last_event, h1, h2, hrec, resultStatus, isOkResult, Except.toOption]
  · by_cases htr : ts.truthy
    · rcases hp : ts.parseInt with _ | n
      · simp [check_device_last_event, h1, h2, hrec, htr, hp, resultStatus,
          isOkResult, Except.toOption]
      · by_cases hcmp : minutes_since_epoch env n
            ≤ env.recent_event_threshold_minutes
        · simp [check_device_last_event, h1, h2, hrec, htr, hp, hcmp,
            resultStatus, isOkResult, Except.toOption]
        · simp [check_device_last_event, h1, h2, hrec, htr, hp, hcmp,
            resultStatus, isOkResult, Except.toOption]
    · simp [check_device_last_event, h1, h2, hrec, htr, resultStatus,
        isOkResult, Except.toOption]

theorem check_device_invalid_timestamp_iff_witness :
    isOkResult (check_device_last_event envZeroTs (.ok [recZeroTs])
        "stream-1" "uuid-1" (some "fw-1")) = true ∧
    (resultStatus (check_device_last_event envZeroTs (.ok [recZeroTs])
        "stream-1" "uuid-1" (some "fw-1")) = some "invalid_timestamp" ↔
      (recZeroTs.last_timestamp = none ∨
       ∃ ts, recZeroTs.last_timestamp = some ts ∧
         (ts.truthy = false ∨ ts.parseInt = none))) ∧
    (resultStatus (check_device_last_event envZeroTs (.ok [recZeroTs])
        "stream-1" "uuid-1" (some "fw-1")) ≠ some "invalid_timestamp" →
      resultStatus (check_device_last_event envZeroTs (.ok [recZeroTs])
          "stream-1" "uuid-1" (some "fw-1")) = some "events_recent" ∨
      resultStatus (check_device_last_event envZeroTs (.ok [recZeroTs])
          "stream-1" "uuid-1" (some "fw-1")) = some "events_stale") :=
  check_device_invalid_timestamp_iff envZeroTs "stream-1" "uuid-1"
    (some "fw-1") recZeroTs [] (by decide) (by decide)

/-- C5: in every successful fleet report, `healthy_percentage` is the exact
ratio recent/total scaled to 100 (0 when the total is 0, with no division
by zero), and `overall_status` is `healthy` exactly when that percentage
exceeds 80. -/
theorem check_all_healthy_percentage (env : SalEnv) (sid : Option String)
    (lim : Nat) (s : Summary)
    (hs : (check_all_devices_status env sid lim).summary = some s) :
    s.healthy_percentage = some (if s.total_devices = 0 then 0 else
      (s.devices_with_recent_events : ℚ) / (s.total_devices : ℚ) * 100) ∧
    (s.total_devices = 0 → s.healthy_percentage = some 0) ∧
    ((check_all_devices_status env sid lim).overall_status = some "healthy"
      ↔ (if s.total_devices = 0 then (0 : ℚ) else
          (s.devices_with_recent_events : ℚ) / (s.total_devices : ℚ) * 100)
            > 80) := by
  unfold check_all_devices_status at hs ⊢
  by_cases h1 : pyOrStr sid env.default_stream_id = ""
  · simp [h1, errResponse] at hs
  · rcases hf : find_devices_by_criteria env none none with msg | dr
    · simp [h1, hf, errResponse] at hs
    · by_cases h2 : dr.devices.take lim = []
      · simp [h1, hf, h2] at hs
      · simp only [h1, hf, h2, if_false, if_true, if_neg,
          Option.some.injEq] at hs ⊢
        subst hs
        dsimp only
        have hlen0 : (List.map
            (checkAllEntry env (pyOrStr sid env.default_stream_id))
            (List.take lim dr.devices)).length ≠ 0 := by
          intro h0
          exact h2 (List.map_eq_nil_iff.mp (List.length_eq_zero.mp h0))
        have hlenpos : 0 < (List.map
            (checkAllEntry env (pyOrStr sid env.default_stream_id))
            (List.take lim dr.devices)).length := Nat.pos_of_ne_zero hlen0
        refine ⟨?_, fun hc => absurd hc hlen0, ?_⟩
        · rw [if_pos hlenpos, if_neg hlen0]
        · rw [if_neg hlen0, if_pos hlenpos]
          by_cases hcmp : ((List.countP Entry.isRecentD (List.map
                (checkAllEntry env (pyOrStr sid env.default_stream_id))
                (List.take lim dr.devices)) : ℚ) /
              ((List.map (checkAllEntry env (pyOrStr sid env.default_stream_id))
                (List.take lim dr.devices)).length : ℚ) * 100) > 80
          · simp [hcmp]
          · simp [hcmp]

/-- One tracked device whose last event was 5 minutes ago: the whole fleet
is recent. -/
def envHealthy : SalEnv :=
  { last_event_table := "tracking"
    default_stream_id := "stream-1"
    now := 1000
    sccList := fun _ => .ok [devTracked]
    store := fun _ _ => .ok [{ last_timestamp := some (.tsInt 700) }] }

def summaryHealthy : Summary :=
  { total_devices := 1
    devices_with_recent_events := 1
    devices_with_stale_events := 0
    devices_with_no_events := 0
    devices_with_errors := some 0
    healthy_percentage := some 100 }

theorem check_all_healthy_percentage_witness :
    summaryHealthy.healthy_percentage
      = some (if summaryHealthy.total_devices = 0 then 0 else
          (summaryHealthy.devices_with_recent_events : ℚ) /
            (summaryHealthy.total_devices : ℚ) * 100) ∧
    (summaryHealthy.total_devices = 0 →
      summaryHealthy.healthy_percentage = some 0) ∧
    ((check_all_devices_status envHealthy none 50).overall_status
        = some "healthy"
      ↔ (if summaryHealthy.total_devices = 0 then (0 : ℚ) else
          (summaryHealthy.devices_with_recent_events : ℚ) /
            (summaryHealthy.total_devices : ℚ) * 100) > 80) :=
  check_all_healthy_percentage envHealthy none 50 summaryHealthy
    (by simp [check_all_devices_status, find_devices_by_criteria, envHealthy,
      pyOrStr, devTracked, checkAllEntry, check_device_last_event,
      Device.hasUuid, Device.displayName, nameOrUnknown, summaryHealthy,
      Entry.isRecentD, minutes_since_epoch, epoch_to_readable,
      TsField.truthy, TsField.parseInt])

/-- Two string concatenations with fixed tails differ whenever the tails
disagree at some position counted from the end. -/
theorem append_ne_of_rev_get (a b s t : String) (i : Nat) (c d : Char)
    (hs : s.data.reverse.get? i = some c)
    (ht : t.data.reverse.get? i = some d) (hcd : c ≠ d) :
    a ++ s ≠ b ++ t := by
  intro h
  have hd : (a ++ s).data = (b ++ t).data := congrArg String.data h
  rw [String.data_append, String.data_append] at hd
  have hrev : s.data.reverse ++ a.data.reverse
      = t.data.reverse ++ b.data.reverse := by
    have := congrArg List.reverse hd
    simpa [List.reverse_append] using this
  have hls : i < s.data.reverse.length := (List.get?_eq_some.mp hs).1
  have hlt : i < t.data.reverse.length := (List.get?_eq_some.mp ht).1
  have hget : (s.data.reverse ++ a.data.reverse).get? i
      = (t.data.reverse ++ b.data.reverse).get? i := congrArg (·.get? i) hrev
  rw [List.get?_append hls, List.get?_append hlt, hs, ht] at hget
  exact hcd (Option.some.injEq _ _ ▸ hget)

/-- Variant of `append_ne_of_rev_get` against a plain constant string. -/
theorem append_ne_const_of_rev_get (a s t : String) (i : Nat) (c d : Char)
    (hs : s.data.reverse.get? i = some c)
    (ht : t.data.reverse.get? i = some d) (hcd : c ≠ d) :
    a ++ s ≠ t := by
  intro h
  have hd : (a ++ s).data = t.data := congrArg String.data h
  rw [String.data_append] at hd
  have hrev : s.data.reverse ++ a.data.reverse = t.data.reverse := by
    have := congrArg List.reverse hd
    simpa [List.reverse_append] using this
  have hls : i < s.data.reverse.length := (List.get?_eq_some.mp hs).1
  have hget : (s.data.reverse ++ a.data.reverse).get? i = t.data.reverse.get? i :=
    congrArg (·.get? i) hrev
  rw [List.get?_append hls, hs, ht] at hget
  exact hcd (Option.some.injEq _ _ ▸ hget)

theorem noEventsLine_ne_staleLine (m n : Nat) : noEventsLine m ≠ staleLine n :=
  append_ne_of_rev_get (toString m) (toString n)
    " devices have never sent events - check SAL configuration and device connectivity"
    " devices have stale events - verify devices are online and SAL forwarding is working"
    0 'y' 'g' (by decide) (by decide) (by decide)

theorem noEventsLine_ne_healthyLine (m : Nat) : noEventsLine m ≠ healthyLine :=
  append_ne_const_of_rev_get (toString m)
    " devices have never sent events - check SAL configuration and device connectivity"
    healthyLine 1 't' 'h' (by decide) (by decide) (by decide)

theorem staleLine_ne_healthyLine (m : Nat) : staleLine m ≠ healthyLine :=
  append_ne_const_of_rev_get (toString m)
    " devices have stale events - verify devices are online and SAL forwarding is working"
    healthyLine 0 'g' 'y' (by decide) (by decide) (by decide)

/-- The four possible outputs of `_generate_recommendations`, by sign of
the two counts it reads. -/
theorem generate_recommendations_eq_cases (rs : List Entry) :
    (countStatus "no_events_ever" rs = 0 ∧ countStatus "events_stale" rs = 0 ∧
      generate_recommendations rs = [healthyLine]) ∨
    (0 < countStatus "no_events_ever" rs ∧ countStatus "events_stale" rs = 0 ∧
      generate_recommendations rs
        = [noEventsLine (countStatus "no_events_ever" rs)]) ∨
    (countStatus "no_events_ever" rs = 0 ∧ 0 < countStatus "events_stale" rs ∧
      generate_recommendations rs
        = [staleLine (countStatus "events_stale" rs)]) ∨
    (0 < countStatus "no_events_ever" rs ∧ 0 < countStatus "events_stale" rs ∧
      generate_recommendations rs
        = [noEventsLine (countStatus "no_events_ever" rs),
           staleLine (countStatus "events_stale" rs)]) := by
  simp only [countStatus]
  rcases Nat.eq_zero_or_pos (rs.countP (fun d => d.status == "no_events_ever"))
    with hne | hne <;>
  rcases Nat.eq_zero_or_pos (rs.countP (fun d => d.status == "events_stale"))
    with hst | hst
  · refine Or.inl ⟨hne, hst, ?_⟩
    simp only [generate_recommendations]
    rw [hne, hst]
    simp
  · refine Or.inr (Or.inr (Or.inl ⟨hne, hst, ?_⟩))
    have hst' : rs.countP (fun d => d.status == "events_stale") ≠ 0 :=
      Nat.pos_iff_ne_zero.mp hst
    simp only [generate_recommendations]
    rw [hne]
    simp [hst, hst']
  · refine Or.inr (Or.inl ⟨hne, hst, ?_⟩)
    have hne' : rs.countP (fun d => d.status == "no_events_ever") ≠ 0 :=
      Nat.pos_iff_ne_zero.mp hne
    simp only [generate_recommendations]
    rw [hst]
    simp [hne, hne']
  · refine Or.inr (Or.inr (Or.inr ⟨hne, hst, ?_⟩))
    have hne' : rs.countP (fun d => d.status == "no_events_ever") ≠ 0 :=
      Nat.pos_iff_ne_zero.mp hne
    have hst' : rs.countP (fun d => d.status == "events_stale") ≠ 0 :=
      Nat.pos_iff_ne_zero.mp hst
    simp only [generate_recommendations]
    simp [hne, hne', hst, hst']

/-- C6: the recommendation generator is a pure function of the
`no_events_ever` and `events_stale` status counts; it emits the
"never sent events" line iff that count is positive, the "stale events"
line iff that count is positive, and the "system is healthy" line iff both
counts are zero; the two warning lines appear in that order, and the list
always has one or two elements. -/
theorem generate_recommendations_spec (rs rs' : List Entry) :
    ((generate_recommendations rs).length = 1 ∨
     (generate_recommendations rs).length = 2) ∧
    (noEventsLine (countStatus "no_events_ever" rs)
        ∈ generate_recommendations rs
      ↔ 0 < countStatus "no_events_ever" rs) ∧
    (staleLine (countStatus "events_stale" rs) ∈ generate_recommendations rs
      ↔ 0 < countStatus "events_stale" rs) ∧
    (healthyLine ∈ generate_recommendations rs
      ↔ countStatus "no_events_ever" rs = 0 ∧
        countStatus "events_stale" rs = 0) ∧
    (0 < countStatus "no_events_ever" rs →
     0 < countStatus "events_stale" rs →
      generate_recommendations rs =
        [noEventsLine (countStatus "no_events_ever" rs),
         staleLine (countStatus "events_stale" rs)]) ∧
    (countStatus "no_events_ever" rs = countStatus "no_events_ever" rs' →
     countStatus "events_stale" rs = countStatus "events_stale" rs' →
     generate_recommendations rs = generate_recommendations rs') := by
  have k1 : ∀ m n : Nat, ¬ noEventsLine m = staleLine n :=
    noEventsLine_ne_staleLine
  have k2 : ∀ m n : Nat, ¬ staleLine n = noEventsLine m :=
    fun m n => (noEventsLine_ne_staleLine m n).symm
  have k3 : ∀ m : Nat, ¬ noEventsLine m = healthyLine :=
    noEventsLine_ne_healthyLine
  have k4 : ∀ m : Nat, ¬ healthyLine = noEventsLine m :=
    fun m => (noEventsLine_ne_healthyLine m).symm
  have k5 : ∀ m : Nat, ¬ staleLine m = healthyLine := staleLine_ne_healthyLine
  have k6 : ∀ m : Nat, ¬ healthyLine = staleLine m :=
    fun m => (staleLine_ne_healthyLine m).symm
  have hpure : countStatus "no_events_ever" rs
        = countStatus "no_events_ever" rs' →
      countStatus "events_stale" rs = countStatus "events_stale" rs' →
      generate_recommendations rs = generate_recommendations rs' := by
    intro h1 h2
    simp only [countStatus] at h1 h2
    simp only [generate_recommendations]
    rw [h1, h2]
  rcases generate_recommendations_eq_cases rs with
    ⟨hne, hst, hgen⟩ | ⟨hne, hst, hgen⟩ | ⟨hne, hst, hgen⟩ | ⟨hne, hst, hgen⟩ <;>
    rw [hgen] <;>
    refine ⟨by simp, ?_, ?_, ?_, ?_, hgen ▸ hpure⟩ <;>
    simp [hne, hst, Nat.pos_iff_ne_zero.mp, k1, k2, k3, k4, k5, k6,
      Nat.lt_irrefl]

/-- C7: when the device search succeeds with zero matches,
`troubleshoot_device` returns a successful `device_not_found` response
whose message names the criteria searched, with troubleshooting guidance
and no error, regardless of the supplied or configured stream
identifier (device resolution happens before stream-id resolution). -/
theorem troubleshoot_device_not_found (env : SalEnv) (criteria : String)
    (sid : Option String) (hok : env.hasSccTool = true) (hc : criteria ≠ "")
    (hscc : env.sccFind criteria = .ok []) :
    (troubleshoot_device env criteria sid).success = true ∧
    (troubleshoot_device env criteria sid).status
      = some "device_not_found" ∧
    (troubleshoot_device env criteria sid).message
      = some ("No firewall devices found matching criteria: " ++ criteria) ∧
    (troubleshoot_device env criteria sid).troubleshooting
      = some "Check device name spelling or try broader search criteria" ∧
    (troubleshoot_device env criteria sid).error = none := by
  have hfind := find_devices_by_name env criteria [] hok hc hscc
  simp only [List.filter_nil] at hfind
  unfold troubleshoot_device
  rw [hfind]
  simp

def envNoMatch : SalEnv :=
  { last_event_table := "tracking"
    default_stream_id := "stream-1"
    sccFind := fun _ => .ok [] }

theorem troubleshoot_device_not_found_witness :
    (troubleshoot_device envNoMatch "Unknown123" none).success = true ∧
    (troubleshoot_device envNoMatch "Unknown123" none).status
      = some "device_not_found" ∧
    (troubleshoot_device envNoMatch "Unknown123" none).message
      = some ("No firewall devices found matching criteria: " ++ "Unknown123") ∧
    (troubleshoot_device envNoMatch "Unknown123" none).troubleshooting
      = some "Check device name spelling or try broader search criteria" ∧
    (troubleshoot_device envNoMatch "Unknown123" none).error = none :=
  troubleshoot_device_not_found envNoMatch "Unknown123" none (by decide)
    (by decide) (by rfl)

/-- Every entry of the per-device loop of `troubleshoot_device` carries a
message and troubleshooting guidance. -/
theorem troubleshootEntry_message (env : SalEnv) (sid : String) (d : Device) :
    (troubleshootEntry env sid d).message.isSome ∧
    (troubleshootEntry env sid d).troubleshooting.isSome := by
  by_cases hu : d.hasUuid
  · rcases hc : check_device_last_event env (env.store sid (d.uidOnFmc.getD ""))
        sid (d.uidOnFmc.getD "") (some d.displayName) with msg | e
    · simp [troubleshootEntry, hu, hc]
    · obtain ⟨-, hm, ht, -⟩ := check_device_last_event_ok_shape env _ _ _ _ _ hc
      simp [troubleshootEntry, hu, hc, hm, ht]
  · simp [troubleshootEntry, hu]

/-- Entries of the `check_all_devices_status` loop carry a message and
troubleshooting guidance except for the bare `no_uuid` and `error`
entries. -/
theorem checkAllEntry_message (env : SalEnv) (sid : String) (d : Device) :
    (checkAllEntry env sid d).status = "no_uuid" ∨
    (checkAllEntry env sid d).status = "error" ∨
    ((checkAllEntry env sid d).message.isSome ∧
     (checkAllEntry env sid d).troubleshooting.isSome) := by
  by_cases hu : d.hasUuid
  · rcases hc : check_device_last_event env (env.store sid (d.uidOnFmc.getD ""))
        sid (d.uidOnFmc.getD "") (some d.displayName) with msg | e
    · simp [checkAllEntry, hu, hc]
    · obtain ⟨-, hm, ht, -⟩ := check_device_last_event_ok_shape env _ _ _ _ _ hc
      simp [checkAllEntry, hu, hc, hm, ht]
  · simp [checkAllEntry, hu]

/-- C8 counterexample: with one tracked device whose freshness lookup
fails, `check_all_devices_status` emits a per-device entry with status
`error` and no `message` or `troubleshooting` key, inside a successful
response that itself has no top-level `message`. -/
def entryErrorBare : Entry :=
  { device_name := "fw-1"
    device_uuid := some (some "uuid-1")
    status := "error"
    is_recent := some false }

def envStoreFail : SalEnv :=
  { last_event_table := "tracking"
    default_stream_id := "stream-1"
    sccList := fun _ => .ok [devTracked]
    store := fun _ _ => .error "boom" }

theorem check_all_bare_error_entry_cex :
    (check_all_devices_status envStoreFail none 50).success = true ∧
    (check_all_devices_status envStoreFail none 50).device_results
      = some [entryErrorBare] ∧
    entryErrorBare.message = none ∧
    entryErrorBare.troubleshooting = none ∧
    (check_all_devices_status envStoreFail none 50).message = none := by
  decide

/-- C8 (amended): every per-device entry of `troubleshoot_device` carries
`message` and `troubleshooting`; in `check_all_devices_status` the same
holds except for the bare `no_uuid` and `error` entries, which carry only
device identity, status and `is_recent`; the top-level `device_not_found`
and `no_devices` soft-status responses carry a `message` (with
troubleshooting guidance in the former). -/
theorem soft_status_messages (env : SalEnv) :
    (∀ criteria sid rs e,
      (troubleshoot_device env criteria sid).device_results = some rs →
      e ∈ rs → e.message.isSome ∧ e.troubleshooting.isSome) ∧
    (∀ sid lim rs e,
      (check_all_devices_status env sid lim).device_results = some rs →
      e ∈ rs → e.status = "no_uuid" ∨ e.status = "error" ∨
        (e.message.isSome ∧ e.troubleshooting.isSome)) ∧
    (∀ criteria sid,
      (troubleshoot_device env criteria sid).status
          = some "device_not_found" →
      (troubleshoot_device env criteria sid).message.isSome ∧
      (troubleshoot_device env criteria sid).troubleshooting.isSome) ∧
    (∀ sid lim,
      (check_all_devices_status env sid lim).status = some "no_devices" →
      (check_all_devices_status env sid lim).message.isSome) := by
  refine ⟨?_, ?_, ?_, ?_⟩
  · intro criteria sid rs e hrs he
    unfold troubleshoot_device at hrs
    rcases hf : find_devices_by_criteria env (some criteria) none with msg | dr <;>
      rw [hf] at hrs
    · simp [errResponse] at hrs
    · by_cases h2 : dr.devices = []
      · simp [h2] at hrs
      · by_cases h3 : pyOrStr sid env.default_stream_id = ""
        · simp [h2, h3] at hrs
        · simp only [h2, h3, if_false, if_neg, if_true,
            Option.some.injEq] at hrs
          subst hrs
          rcases List.mem_map.mp he with ⟨d, -, rfl⟩
          exact troubleshootEntry_message env _ d
  · intro sid lim rs e hrs he
    unfold check_all_devices_status at hrs
    by_cases h1 : pyOrStr sid env.default_stream_id = ""
    · simp [h1, errResponse] at hrs
    · rcases hf : find_devices_by_criteria env none none with msg | dr <;>
        rw [hf] at hrs <;> simp only [h1, if_false, if_neg] at hrs
      · simp [errResponse] at hrs
      · by_cases h2 : dr.devices.take lim = []
        · simp [h2] at hrs
        · simp only [h2, if_false, if_neg, if_true, Option.some.injEq] at hrs
          subst hrs
          rcases List.mem_map.mp he with ⟨d, -, rfl⟩
          exact checkAllEntry_message env _ d
  · intro criteria sid hst
    unfold troubleshoot_device at hst ⊢
    rcases hf : find_devices_by_criteria env (some criteria) none with msg | dr <;>
      rw [hf] at hst
    · simp [errResponse] at hst
    · by_cases h2 : dr.devices = []
      · simp [h2]
      · by_cases h3 : pyOrStr sid env.default_stream_id = ""
        · simp [h2, h3] at hst
        · simp [h2, h3] at hst
  · intro sid lim hst
    unfold check_all_devices_status at hst ⊢
    by_cases h1 : pyOrStr sid env.default_stream_id = ""
    · simp [h1, errResponse] at hst
    · rcases hf : find_devices_by_criteria env none none with msg | dr <;>
        rw [hf] at hst
      · simp [h1, errResponse] at hst
      · by_cases h2 : dr.devices.take lim = []
        · simp [h1, h2]
        · simp [h1, h2] at hst

/-- One tracked device that has never sent an event. -/
def envTroubleOk : SalEnv :=
  { last_event_table := "tracking"
    default_stream_id := "stream-1"
    sccFind := fun _ => .ok [devTracked]
    store := fun _ _ => .ok [] }

/-- The `no_events_ever` entry produced for `devTracked` in
`envTroubleOk`. -/
def entryNoEventsT : Entry :=
  { success := some true
    device_name := "fw-1"
    device_uuid := some (some "uuid-1")
    stream_id := some "stream-1"
    status := "no_events_ever"
    message := some "No events have ever been recorded for this device in SAL"
    troubleshooting := some "Device may not be properly configured to send events to SAL or may have never been active"
    last_event_time := some none
    minutes_since_last_event := some none
    is_recent := some false }

theorem soft_status_messages_witness :
    entryNoEventsT.message.isSome ∧ entryNoEventsT.troubleshooting.isSome :=
  (soft_status_messages envTroubleOk).1 "fw-1" none [entryNoEventsT]
    entryNoEventsT (by decide) (by decide)

theorem generate_recommendations_spec_witness :
    ((generate_recommendations [entryNoEventsT]).length = 1 ∨
     (generate_recommendations [entryNoEventsT]).length = 2) ∧
    (noEventsLine (countStatus "no_events_ever" [entryNoEventsT])
        ∈ generate_recommendations [entryNoEventsT]
      ↔ 0 < countStatus "no_events_ever" [entryNoEventsT]) ∧
    (staleLine (countStatus "events_stale" [entryNoEventsT])
        ∈ generate_recommendations [entryNoEventsT]
      ↔ 0 < countStatus "events_stale" [entryNoEventsT]) ∧
    (healthyLine ∈ generate_recommendations [entryNoEventsT]
      ↔ countStatus "no_events_ever" [entryNoEventsT] = 0 ∧
        countStatus "events_stale" [entryNoEventsT] = 0) ∧
    (0 < countStatus "no_events_ever" [entryNoEventsT] →
     0 < countStatus "events_stale" [entryNoEventsT] →
      generate_recommendations [entryNoEventsT] =
        [noEventsLine (countStatus "no_events_ever" [entryNoEventsT]),
         staleLine (countStatus "events_stale" [entryNoEventsT])]) ∧
    (countStatus "no_events_ever" [entryNoEventsT]
        = countStatus "no_events_ever" [entryNoEventsT] →
     countStatus "events_stale" [entryNoEventsT]
        = countStatus "events_stale" [entryNoEventsT] →
     generate_recommendations [entryNoEventsT]
        = generate_recommendations [entryNoEventsT]) :=
  generate_recommendations_spec [entryNoEventsT] [entryNoEventsT]

/-- A failed `troubleshoot_device` response always carries an error
string. -/
theorem troubleshoot_device_error_string (env : SalEnv) (criteria : String)
    (sid : Option String) :
    (troubleshoot_device env criteria sid).success = false →
    (troubleshoot_device env criteria sid).error.isSome := by
  unfold troubleshoot_device
  rcases hf : find_devices_by_criteria env (some criteria) none with msg | dr
  · simp [errResponse]
  · by_cases h2 : dr.devices = []
    · simp [h2]
    · by_cases h3 : pyOrStr sid env.default_stream_id = ""
      · simp [h2, h3]
      · simp [h2, h3]

/-- A failed `check_all_devices_status` response always carries an error
string. -/
theorem check_all_error_string (env : SalEnv) (sid : Option String)
    (lim : Nat) :
    (check_all_devices_status env sid lim).success = false →
    (check_all_devices_status env sid lim).error.isSome := by
  unfold check_all_devices_status
  by_cases h1 : pyOrStr sid env.default_stream_id = ""
  · simp [h1, errResponse]
  · rcases hf : find_devices_by_criteria env none none with msg | dr
    · simp [h1, errResponse]
    · by_cases h2 : dr.devices.take lim = []
      · simp [h1, h2]
      · simp [h1, h2]

/-- C9: `process_request` always returns a dictionary with a boolean
`success` key, and whenever `success` is false the dictionary carries an
`error` string; the embedding is total, so no exception escapes. -/
theorem process_request_success_error (env : SalEnv) (operation : String)
    (kwargs : Kwargs) :
    (process_request env operation kwargs).successKey.isSome ∧
    ((process_request env operation kwargs).successKey = some false →
      (process_request env operation kwargs).errorKey.isSome) := by
  unfold process_request
  by_cases h1 : operation = "troubleshoot_device"
  · by_cases h2 : pyOrStr kwargs.device_criteria (kwargs.device_name.getD "")
        = ""
    · simp [h1, h2, errResponse, SalOut.successKey, SalOut.errorKey]
    · simp only [h1, h2, if_true, if_false, if_neg, ite_true, ite_false,
        reduceIte, SalOut.successKey, SalOut.errorKey]
      constructor
      · simp
      · intro hs
        exact troubleshoot_device_error_string env _ kwargs.stream_id
          (by simpa using hs)
  · by_cases h3 : operation = "check_all_devices"
    · simp only [h1, h3, if_true, if_false, if_neg, ite_true, ite_false,
        reduceIte, SalOut.successKey, SalOut.errorKey]
      constructor
      · simp
      · intro hs
        exact check_all_error_string env kwargs.stream_id (kwargs.limit.getD 50)
          (by simpa using hs)
    · by_cases h4 : operation = "check_device_events"
      · by_cases h5 : pyOrStr kwargs.stream_id env.default_stream_id = ""
        · simp [h1, h3, h4, h5, errResponse, SalOut.successKey,
            SalOut.errorKey]
        · by_cases h6 : kwargs.device_uuid.getD "" = ""
          · simp [h1, h3, h4, h5, h6, errResponse, SalOut.successKey,
              SalOut.errorKey]
          · rcases hc : check_device_last_event env
                (env.store (pyOrStr kwargs.stream_id env.default_stream_id)
                  (kwargs.device_uuid.getD ""))
                (pyOrStr kwargs.stream_id env.default_stream_id)
                (kwargs.device_uuid.getD "")
                (some (kwargs.device_name.getD "Unknown")) with msg | e
            · simp [h1, h3, h4, h5, h6, hc, errResponse, SalOut.successKey,
                SalOut.errorKey]
            · obtain ⟨hsucc, -, -, -⟩ :=
                check_device_last_event_ok_shape env _ _ _ _ _ hc
              simp [h1, h3, h4, h5, h6, hc, hsucc, SalOut.successKey,
                SalOut.errorKey]
      · simp [h1, h3, h4, errResponse, SalOut.successKey, SalOut.errorKey]

theorem process_request_success_error_witness :
    (process_request envTroubleOk "bogus" {}).successKey.isSome ∧
    ((process_request envTroubleOk "bogus" {}).successKey = some false →
      (process_request envTroubleOk "bogus" {}).errorKey.isSome) :=
  process_request_success_error envTroubleOk "bogus" {}

/-- The unfiltered device listing of `check_all_devices_status` is
requested from the SCC tool with a fixed limit of 100, and the devices kept
are the uuid-filtered items of that response. -/
theorem find_devices_all_devices (env : SalEnv) (dr : FindResult)
    (h : find_devices_by_criteria env none none = .ok dr) :
    ∃ items, env.sccList 100 = .ok items ∧
      dr.devices = items.filter Device.hasUuid := by
  by_cases hok : env.hasSccTool = true
  · rcases hl : env.sccList 100 with msg | items
    · simp [find_devices_by_criteria, hok, hl] at h
    · simp only [find_devices_by_criteria, hok, hl, not_true, if_false,
        ite_false, reduceIte, Except.ok.injEq] at h
      exact ⟨items, rfl, by rw [← h]⟩
  · have hok' : env.hasSccTool = false := by
      revert hok
      cases env.hasSccTool <;> simp
    simp [find_devices_by_criteria, hok'] at h

/-- C10: under the Directory Client contract that a listing honours its
requested limit (here the fixed limit 100 of the source), a
`check_all_devices_status` run checks at most `min limit 100` devices,
whatever limit the caller passes. -/
theorem check_all_devices_checked_bounded (env : SalEnv)
    (sid : Option String) (lim : Nat)
    (hcontract : ∀ items, env.sccList 100 = .ok items → items.length ≤ 100) :
    ∀ n, (check_all_devices_status env sid lim).devices_checked = some n →
      n ≤ min lim 100 := by
  intro n hn
  unfold check_all_devices_status at hn
  by_cases h1 : pyOrStr sid env.default_stream_id = ""
  · simp [h1, errResponse] at hn
  · rcases hf : find_devices_by_criteria env none none with msg | dr <;>
      rw [hf] at hn
    · simp [h1, errResponse] at hn
    · by_cases h2 : dr.devices.take lim = []
      · simp [h1, h2] at hn
      · simp only [h1, h2, if_false, if_neg, if_true, ite_false, ite_true,
          reduceIte, Option.some.injEq] at hn
        obtain ⟨items, hl, hdev⟩ := find_devices_all_devices env dr hf
        have hlen : items.length ≤ 100 := hcontract items hl
        have hfil : (items.filter Device.hasUuid).length ≤ items.length :=
          List.length_filter_le _ _
        have htake : (dr.devices.take lim).length = min lim dr.devices.length :=
          List.length_take lim dr.devices
        rw [List.length_map] at hn
        rw [hdev] at htake hn
        omega

theorem check_all_devices_checked_bounded_witness :
    (check_all_devices_status envHealthy none 50).devices_checked
      = some 1 ∧ (1 : Nat) ≤ min 50 100 :=
  ⟨by decide,
    check_all_devices_checked_bounded envHealthy none 50
      (by intro items h; injection h with h2; simp [← h2]) 1 (by decide)⟩

/-- A search matching one device without `uidOnFmc` and one with it. -/
def envMixed : SalEnv :=
  { last_event_table := "tracking"
    default_stream_id := "stream-1"
    sccFind := fun _ => .ok [devNoUuid, devTracked]
    store := fun _ _ => .ok [] }

theorem troubleshoot_device_excludes_no_uuid_witness :
    ((troubleshoot_device envMixed "fw" none).devices_checked = none ∨
     (troubleshoot_device envMixed "fw" none).devices_checked
        = some (([devNoUuid, devTracked].filter Device.hasUuid).length)) ∧
    (∀ rs, (troubleshoot_device envMixed "fw" none).device_results
        = some rs → ∀ e ∈ rs, e.status ≠ "no_uuid") :=
  troubleshoot_device_excludes_no_uuid envMixed "fw" none
    [devNoUuid, devTracked] (by decide) (by decide) (by rfl)
